import Mathlib

/-!
Verification development for the Strava dashboard ingestion-and-aggregation
pipeline (`src/app.py`).  The Python code is shallowly embedded: dataframe
rows become Lean structures over `ℚ` (with `Option` for NaN/None cells),
the pandas `resample` call becomes an explicit calendar-bucketing function,
and the network-facing ingestion function becomes a function of an explicit
environment describing the responses it would receive.
-/

namespace Strava

/- The arithmetic of `Rat` is `@[irreducible]` in Batteries, which blocks
`decide` from evaluating the model on concrete inputs; within this
development we let it reduce. -/
attribute [local semireducible] Rat.add Rat.mul Rat.inv Rat.sub

/-- Calendar date with year, month and day fields, as carried (at midnight,
day granularity) by the `Fecha` column of the dataframe. -/
structure Ymd where
  y : ℕ
  m : ℕ
  d : ℕ
  deriving DecidableEq, Repr, Inhabited

/-- Gregorian leap-year test, as used by the `datetime`/pandas calendar. -/
def isLeap (y : ℕ) : Bool :=
  (y % 4 == 0 && y % 100 != 0) || (y % 400 == 0)

/-- Number of days of month `m` in year `y`. -/
def daysInMonth (y m : ℕ) : ℕ :=
  if m = 2 then (if isLeap y then 29 else 28)
  else if m = 4 ∨ m = 6 ∨ m = 9 ∨ m = 11 then 30
  else 31

/-- A structurally valid proleptic-Gregorian calendar date. -/
def validYmd (x : Ymd) : Prop :=
  1 ≤ x.y ∧ 1 ≤ x.m ∧ x.m ≤ 12 ∧ 1 ≤ x.d ∧ x.d ≤ daysInMonth x.y x.m

instance (x : Ymd) : Decidable (validYmd x) := by
  unfold validYmd; infer_instance

/-- Days in the months of year `y` strictly before month `m`
(so `cumDays y 1 = 0`). -/
def cumDays (y : ℕ) : ℕ → ℕ
  | 0 => 0
  | m + 1 => if m = 0 then 0 else cumDays y m + daysInMonth y m

/-- Day number of a date: days since 0001-01-01 (proleptic Gregorian).
0001-01-01 is a Monday, so `days x % 7 = 0` exactly on Mondays. -/
def days (x : Ymd) : ℕ :=
  365 * (x.y - 1) + (x.y - 1) / 4 + (x.y - 1) / 400 - (x.y - 1) / 100
    + cumDays x.y x.m + (x.d - 1)

/-- The calendar successor of a date. -/
def nextDay (x : Ymd) : Ymd :=
  if x.d < daysInMonth x.y x.m then ⟨x.y, x.m, x.d + 1⟩
  else if x.m < 12 then ⟨x.y, x.m + 1, 1⟩
  else ⟨x.y + 1, 1, 1⟩

theorem one_le_daysInMonth (y m : ℕ) : 1 ≤ daysInMonth y m := by
  unfold daysInMonth; split_ifs <;> omega

theorem daysInMonth_le (y m : ℕ) : daysInMonth y m ≤ 31 := by
  unfold daysInMonth; split_ifs <;> omega

theorem nextDay_valid {x : Ymd} (h : validYmd x) : validYmd (nextDay x) := by
  obtain ⟨h1, h2, h3, h4, h5⟩ := h
  unfold nextDay
  split_ifs with hd hm
  · exact ⟨h1, h2, h3, by dsimp only; omega, by dsimp only; omega⟩
  · refine ⟨h1, by dsimp only; omega, by dsimp only; omega, by dsimp only; omega, ?_⟩
    dsimp only
    exact one_le_daysInMonth _ _
  · refine ⟨by dsimp only; omega, by dsimp only; omega, by dsimp only; omega,
      by dsimp only; omega, ?_⟩
    dsimp only
    unfold daysInMonth
    norm_num

theorem cumDays_succ {y m : ℕ} (h1 : 1 ≤ m) :
    cumDays y (m + 1) = cumDays y m + daysInMonth y m := by
  rw [cumDays, if_neg (by omega)]

theorem cumDays_twelve (y : ℕ) :
    cumDays y 12 = 334 + (if isLeap y then 1 else 0) := by
  by_cases hL : isLeap y <;>
    simp [cumDays, daysInMonth, hL, show (0:ℕ) ≠ 2 by omega]

set_option maxHeartbeats 1000000 in
theorem days_nextDay {x : Ymd} (h : validYmd x) :
    days (nextDay x) = days x + 1 := by
  obtain ⟨h1, h2, h3, h4, h5⟩ := h
  unfold nextDay
  split_ifs with hd hm
  · unfold days
    dsimp only
    omega
  · have hc : cumDays x.y (x.m + 1) = cumDays x.y x.m + daysInMonth x.y x.m :=
      cumDays_succ h2
    unfold days
    dsimp only
    omega
  · -- December 31 rolls over to January 1 of the next year.
    have hm12 : x.m = 12 := by omega
    have hd31 : daysInMonth x.y 12 = 31 := by unfold daysInMonth; norm_num
    rw [hm12] at h5 hd
    have hdx : x.d = 31 := by omega
    clear h5 hd h3 hm
    unfold days
    dsimp only
    rw [hm12, hdx, cumDays_twelve]
    have hcum1 : cumDays (x.y + 1) 1 = 0 := rfl
    rw [hcum1]
    have hiff : (isLeap x.y = true) ↔
        (x.y % 4 = 0 ∧ x.y % 100 ≠ 0 ∨ x.y % 400 = 0) := by
      unfold isLeap
      simp only [Bool.or_eq_true, Bool.and_eq_true, beq_iff_eq, bne_iff_ne,
        ne_eq]
    by_cases hL : isLeap x.y = true
    · rw [if_pos hL]
      have hLa := hiff.mp hL
      clear hL hiff hd31 hcum1
      omega
    · rw [if_neg hL]
      have hLa := (not_congr hiff).mp hL
      clear hL hiff hd31 hcum1
      omega

/-- Add `k` calendar days to a date. -/
def addDays (x : Ymd) : ℕ → Ymd
  | 0 => x
  | k + 1 => addDays (nextDay x) k

theorem addDays_spec {x : Ymd} (h : validYmd x) :
    ∀ k, validYmd (addDays x k) ∧ days (addDays x k) = days x + k := by
  intro k
  induction k generalizing x with
  | zero => exact ⟨h, rfl⟩
  | succ n ih =>
    have hn := nextDay_valid h
    obtain ⟨hv, hdn⟩ := ih hn
    refine ⟨hv, ?_⟩
    rw [show addDays x (n + 1) = addDays (nextDay x) n from rfl, hdn,
      days_nextDay h]
    omega

/-- One row of the normalized dataframe built in `cargar_datos_desde_api`
(src/app.py lines 75-82): columns `Fecha`, `Distancia (km)`, `Tiempo (min)`,
`Pace promedio (min/km)`, `Pulsaciones promedio`, `Cadencia promedio`.
`none` models a NaN cell (a Python `None` stored in a float column). -/
structure ActivityRecord where
  fecha : Ymd
  distancia : ℚ
  tiempo : ℚ
  pace : Option ℚ
  pulsaciones : Option ℚ
  cadencia : Option ℚ
  deriving DecidableEq, Repr, Inhabited

/-- The aggregation periods offered by the selectbox and understood by
`agregar_resample` (src/app.py lines 141-148). -/
inductive Periodo
  | porActividad
  | diario
  | semanal
  | mensual
  | trimestral
  | anual
  deriving DecidableEq, Repr

/-- A float cell of the resampled `Pace promedio (min/km)` column: dividing
two float columns can produce an ordinary number, `±inf` (nonzero over zero)
or NaN (zero over zero). -/
inductive PVal
  | num (q : ℚ)
  | posInf
  | negInf
  | nan
  deriving DecidableEq, Repr, Inhabited

/-- Float division as performed by `df_resampled['Tiempo (min)'] /
df_resampled['Distancia (km)']` (src/app.py line 162): IEEE semantics on
exact values. -/
def pandasDiv (t d : ℚ) : PVal :=
  if d = 0 then (if t = 0 then .nan else if 0 < t then .posInf else .negInf)
  else .num (t / d)

/-- One row of `df_resampled` (src/app.py lines 154-163): the bucket label in
`Fecha`, summed distance and time, NaN-skipping means, recomputed pace. -/
structure AggRecord where
  fecha : Ymd
  distancia : ℚ
  tiempo : ℚ
  pace : PVal
  pulsaciones : Option ℚ
  cadencia : Option ℚ
  deriving DecidableEq, Repr, Inhabited

/-- The closing month of the quarter containing month `m`
(pandas `Q` frequency, quarters ending March/June/September/December). -/
def qEndMonth (m : ℕ) : ℕ :=
  if m ≤ 3 then 3 else if m ≤ 6 then 6 else if m ≤ 9 then 9 else 12

/-- The pandas bin label for the record date `x` under each `resample`
frequency of the `mapping` dict (src/app.py lines 141-148): `D` labels the
day itself; `W-MON` uses right-closed, right-labeled weekly bins ending on
Monday, so the label is the first Monday on or after `x`; `M`, `Q` and `Y`
label with the last day of the month, quarter and year containing `x`. -/
def label : Periodo → Ymd → Ymd
  | .diario, x => x
  | .semanal, x => addDays x ((7 - days x % 7) % 7)
  | .mensual, x => ⟨x.y, x.m, daysInMonth x.y x.m⟩
  | .trimestral, x => ⟨x.y, qEndMonth x.m, daysInMonth x.y (qEndMonth x.m)⟩
  | .anual, x => ⟨x.y, 12, 31⟩
  | .porActividad, x => x

/-- The label of the bin following the bin labeled `l`. -/
def nextLabel : Periodo → Ymd → Ymd
  | .diario, l => nextDay l
  | .semanal, l => addDays l 7
  | .mensual, l => label .mensual (nextDay l)
  | .trimestral, l => label .trimestral (nextDay l)
  | .anual, l => ⟨l.y + 1, 12, 31⟩
  | .porActividad, l => l

/-- The ascending sequence of bin labels from `lo` to `hi` that
`resample` materializes (including bins no record falls into). -/
def labelRange (next : Ymd → Ymd) : ℕ → Ymd → Ymd → List Ymd
  | 0, _, _ => []
  | fuel + 1, lo, hi =>
    if days lo ≤ days hi then lo :: labelRange next fuel (next lo) hi else []

/-- The NaN-skipping mean that `.agg('mean')` applies to the heart-rate and
cadence columns: the mean of the defined values, NaN if there are none. -/
def meanOpt (xs : List ℚ) : Option ℚ :=
  if xs.isEmpty then none else some (xs.sum / (xs.length : ℚ))

/-- The `df_resampled` row for bin label `lbl`: `'sum'` over the bin for
distance and time (0 on an empty bin), `'mean'` over defined values for
heart rate and cadence (NaN on an empty bin), and the pace recomputed as
summed time over summed distance (src/app.py lines 154-162). -/
def bucketAgg (p : Periodo) (df : List ActivityRecord) (lbl : Ymd) : AggRecord :=
  let g := df.filter (fun r => label p r.fecha == lbl)
  let sd := (g.map (fun r => r.distancia)).sum
  let st := (g.map (fun r => r.tiempo)).sum
  ⟨lbl, sd, st, pandasDiv st sd,
    meanOpt (g.filterMap (fun r => r.pulsaciones)),
    meanOpt (g.filterMap (fun r => r.cadencia))⟩

/-- Earliest date (by day number) among `x` and the dates in `l`,
modelling `df.index.min()`. -/
def minFecha (x : Ymd) (l : List Ymd) : Ymd :=
  l.foldl (fun a b => if days b < days a then b else a) x

/-- Latest date among `x` and the dates in `l`, modelling `df.index.max()`. -/
def maxFecha (x : Ymd) (l : List Ymd) : Ymd :=
  l.foldl (fun a b => if days a < days b then b else a) x

/-- In the `'Por actividad'` branch the dataframe is returned unchanged; a
`None` pace cell is the same NaN float cell either way. -/
def toAgg (r : ActivityRecord) : AggRecord :=
  ⟨r.fecha, r.distancia, r.tiempo,
    (match r.pace with | none => .nan | some q => .num q),
    r.pulsaciones, r.cadencia⟩

/-- The bin labels `resample` materializes for a dataframe: the regular grid
of labels from the label of `index.min()` to the label of `index.max()`. -/
def resampleBins (p : Periodo) (df : List ActivityRecord) : List Ymd :=
  match df with
  | [] => []
  | r :: rest =>
    let lo := label p (minFecha r.fecha (rest.map (fun s => s.fecha)))
    let hi := label p (maxFecha r.fecha (rest.map (fun s => s.fecha)))
    labelRange (nextLabel p) (days hi + 1 - days lo) lo hi

/-- Model of `agregar_resample` (src/app.py lines 137-164): identity for
`'Por actividad'`; otherwise resample over the calendar bins covering
`[index.min(), index.max()]`, aggregate each bin, and recompute the pace
column from the summed columns. -/
def agregar_resample (df : List ActivityRecord) (p : Periodo) : List AggRecord :=
  match p with
  | .porActividad => df.map toAgg
  | _ => (resampleBins p df).map (bucketAgg p df)

/-- A raw activity object from the activities endpoint, with the fields the
code reads (src/app.py lines 66-81): `type`, `distance` (meters),
`moving_time` (seconds), the date component of `start_date`, and the two
optional fields read through `.get`. -/
structure RawActivity where
  type : String
  distance : ℚ
  moving_time : ℚ
  start_date : Ymd
  average_heartrate : Option ℚ
  average_cadence : Option ℚ
  deriving DecidableEq, Repr

/-- Round half to even at integer precision, as Python's `round` does. -/
def rndHalfEven (q : ℚ) : ℤ :=
  let f : ℤ := Int.fdiv q.num q.den
  if q - (f : ℚ) < 1 / 2 then f
  else if (1 : ℚ) / 2 < q - (f : ℚ) then f + 1
  else if f % 2 = 0 then f else f + 1

/-- Python's `round(x, 2)`. -/
def round2 (q : ℚ) : ℚ := (rndHalfEven (q * 100) : ℚ) / 100

/-- Normalization of one kept activity (src/app.py lines 70-82): meters to
kilometers, seconds to minutes, derived pace, 2-decimal rounding.  The pace
cell is `round(pace_promedio, 2) if pace_promedio else None`: Python
truthiness maps both `None` and `0.0` to the `None` branch. -/
def normalizeOne (a : RawActivity) : ActivityRecord :=
  let distancia_km := a.distance / 1000
  let tiempo_min := a.moving_time / 60
  let pace_promedio : Option ℚ :=
    if 0 < distancia_km then some (tiempo_min / distancia_km) else none
  { fecha := a.start_date
    distancia := round2 distancia_km
    tiempo := round2 tiempo_min
    pace := match pace_promedio with
            | some q => if q = 0 then none else some (round2 q)
            | none => none
    pulsaciones := a.average_heartrate
    cadencia := a.average_cadence }

/-- The response the activities endpoint gives to one page request:
a 200 response with a JSON list, or any response with another status. -/
inductive PageResp
  | ok (data : List RawActivity)
  | err
  deriving DecidableEq, Repr

/-- The pagination loop of `cargar_datos_desde_api` (src/app.py lines 47-63)
run against a list of page responses: a 200 response with a nonempty list is
accumulated and the loop continues with the next page; a 200 response with an
empty list breaks; any non-200 response breaks, keeping what was accumulated
and raising nothing. -/
def fetchAll : List PageResp → List RawActivity
  | [] => []
  | .err :: _ => []
  | .ok [] :: _ => []
  | .ok (a :: as) :: rest => (a :: as) ++ fetchAll rest

/-- Observable external actions of `cargar_datos_desde_api`: the token POST,
each activities-page GET (with its page number), and the cache write
attempt. -/
inductive Ev
  | tokenReq
  | pageReq (n : ℕ)
  | cacheWrite
  deriving DecidableEq, Repr

/-- The page requests the pagination loop issues, starting at page `n`. -/
def fetchEvents : List PageResp → ℕ → List Ev
  | [], _ => []
  | .err :: _, n => [.pageReq n]
  | .ok [] :: _, n => [.pageReq n]
  | .ok (_ :: _) :: rest, n => .pageReq n :: fetchEvents rest (n + 1)

/-- Environment of one run of `cargar_datos_desde_api`: the three
credentials read from the environment (`None` when unset), the
`access_token` field of the token response, the page responses the
activities endpoint would serve, and whether the cache write succeeds.
The environment describes the NON-RAISING executions of both network calls:
a `requests.post`/`requests.get` that raises instead of returning a response
(for example a timeout) is a further failure mode of the source that this
environment does not represent — it would land in the same broad `except`
and produce the no-dataset result. -/
structure ApiEnv where
  client_id : Option String
  client_secret : Option String
  refresh_token : Option String
  access_token : Option String
  pages : List PageResp
  cacheWriteOk : Bool

/-- The outcome of `cargar_datos_desde_api`: the returned value (`None` on
any failure) and the trace of external actions performed. -/
structure ApiOutcome where
  result : Option (List ActivityRecord)
  events : List Ev
  deriving DecidableEq, Repr

/-- The check `response.json().get('access_token')` followed by
`if not access_token`: an absent or empty token is rejected. -/
def tokenOf (env : ApiEnv) : Option String :=
  match env.access_token with
  | none => none
  | some t => if t.isEmpty then none else some t

/-- Model of `cargar_datos_desde_api` (src/app.py lines 16-92).  The token
POST is issued unconditionally — the credentials are never validated before
the request.  Everything runs inside one broad `try/except` returning `None`,
so a failing `df.to_csv` cache write also yields `None`.  As noted on
`ApiEnv`, exceptions raised by the network calls themselves (timeouts) are
outside the environment, so this function characterizes the runs in which
every issued request returns a response. -/
def cargar_datos_desde_api (env : ApiEnv) : ApiOutcome :=
  match tokenOf env with
  | none => ⟨none, [.tokenReq]⟩
  | some _ =>
    let actividades := fetchAll env.pages
    let evs := Ev.tokenReq :: fetchEvents env.pages 1
    let actividades_run := actividades.filter (fun a => a.type == "Run")
    let df := actividades_run.map normalizeOne
    if env.cacheWriteOk then ⟨some df, evs ++ [.cacheWrite]⟩
    else ⟨none, evs ++ [.cacheWrite]⟩

/-- One CSV cell of `cached_activities.csv`: a date string, a number
(float text round-trips exactly, so the cell keeps the exact value), or an
empty cell (what `to_csv` writes for NaN and what `read_csv` reads back as
NaN). -/
inductive Cell
  | txt (s : String)
  | num (q : ℚ)
  | null
  deriving DecidableEq, Repr

/-- One row of `cached_activities.csv`, in the dataframe's column order. -/
structure CsvRow where
  fecha : Cell
  distancia : Cell
  tiempo : Cell
  pace : Cell
  pulsaciones : Cell
  cadencia : Cell
  deriving DecidableEq, Repr

/-- How `to_csv` renders an optional float cell. -/
def optCell : Option ℚ → Cell
  | none => .null
  | some q => .num q

/-- The digit character for `n % 10`-style values. -/
def dch (n : ℕ) : Char := Char.ofNat (48 + n)

/-- Two-digit zero-padded decimal text. -/
def digits2 (n : ℕ) : List Char := [dch (n / 10 % 10), dch (n % 10)]

/-- Four-digit zero-padded decimal text. -/
def digits4 (n : ℕ) : List Char :=
  [dch (n / 1000 % 10), dch (n / 100 % 10), dch (n / 10 % 10), dch (n % 10)]

/-- The `YYYY-MM-DD` text pandas writes for a midnight datetime column. -/
def fmtYmd (x : Ymd) : String :=
  String.mk (digits4 x.y ++ '-' :: (digits2 x.m ++ '-' :: digits2 x.d))

/-- Numeric value of a digit character. -/
def dval (c : Char) : ℕ := c.toNat - 48

/-- Decimal digit test. -/
def isDig (c : Char) : Bool := 48 ≤ c.toNat && c.toNat ≤ 57

/-- Parsing a `%Y-%m-%d` date string, as `pd.to_datetime` does on the cached
`Fecha` column; `none` models a parse failure (an exception in the source). -/
def parseYmd (s : String) : Option Ymd :=
  match s.data with
  | [a, b, c, d, s1, e, f, s2, g, i] =>
    if s1 = '-' ∧ s2 = '-' ∧ (isDig a ∧ isDig b ∧ isDig c ∧ isDig d
        ∧ isDig e ∧ isDig f ∧ isDig g ∧ isDig i) then
      some ⟨1000 * dval a + 100 * dval b + 10 * dval c + dval d,
        10 * dval e + dval f, 10 * dval g + dval i⟩
    else none
  | _ => none

/-- How `df.to_csv` (src/app.py line 87) renders one normalized record. -/
def saveRow (r : ActivityRecord) : CsvRow :=
  ⟨.txt (fmtYmd r.fecha), .num r.distancia, .num r.tiempo,
    optCell r.pace, optCell r.pulsaciones, optCell r.cadencia⟩

/-- Model of `df.to_csv('cached_activities.csv', index=False)`: a full
overwrite with one row per record. -/
def to_csv (df : List ActivityRecord) : List CsvRow := df.map saveRow

/-- Reading back a numeric cell: a number or NaN; date text in a numeric
column would not produce a float. -/
def cellOpt : Cell → Option (Option ℚ)
  | .null => some none
  | .num q => some (some q)
  | .txt _ => none

/-- Reading back one cached row: the `Fecha` cell is parsed to a date value
by `pd.to_datetime`, the numeric cells to floats or NaN; `none` models the
exception path of `cargar_datos_desde_cache`. -/
def loadRow (row : CsvRow) : Option ActivityRecord :=
  match row.fecha with
  | .txt s =>
    match parseYmd s, cellOpt row.distancia, cellOpt row.tiempo,
        cellOpt row.pace, cellOpt row.pulsaciones, cellOpt row.cadencia with
    | some dt, some (some dk), some (some tm), some pc, some pu, some ca =>
      some ⟨dt, dk, tm, pc, pu, ca⟩
    | _, _, _, _, _, _ => none
  | _ => none

/-- Reading all rows; any failing row fails the whole read (the `except`
branch of `cargar_datos_desde_cache` returns `None`). -/
def readRows : List CsvRow → Option (List ActivityRecord)
  | [] => some []
  | row :: rest =>
    match loadRow row, readRows rest with
    | some r, some rs => some (r :: rs)
    | _, _ => none

/-- Model of `cargar_datos_desde_cache` (src/app.py lines 94-103) applied to
a present cache file: `pd.read_csv` plus `pd.to_datetime` on the `Fecha`
column, with `None` on any exception. -/
def cargar_datos_desde_cache (cache : List CsvRow) : Option (List ActivityRecord) :=
  readRows cache

/-! Helper lemmas about the pagination loop -/

theorem fetchAll_fullPages (ps : List (List RawActivity))
    (h : ∀ pg ∈ ps, pg ≠ []) :
    fetchAll (ps.map PageResp.ok ++ [PageResp.ok []]) = ps.flatten := by
  induction ps with
  | nil => rfl
  | cons pg ps ih =>
    cases pg with
    | nil => exact absurd rfl (h _ (by simp))
    | cons a as =>
      have ihn := ih (fun q hq => h q (by simp [hq]))
      simp [fetchAll, ihn]

theorem fetchEvents_fullPages :
    ∀ (ps : List (List RawActivity)) (n : ℕ), (∀ pg ∈ ps, pg ≠ []) →
      fetchEvents (ps.map PageResp.ok ++ [PageResp.ok []]) n
        = (List.range' n (ps.length + 1)).map Ev.pageReq := by
  intro ps
  induction ps with
  | nil => intro n _; simp [fetchEvents, List.range']
  | cons pg ps ih =>
    intro n h
    cases pg with
    | nil => exact absurd rfl (h _ (by simp))
    | cons a as =>
      have ihn := ih (n + 1) (fun q hq => h q (by simp [hq]))
      simp [fetchEvents, ihn, List.range']

theorem flatten_length_const (ps : List (List RawActivity))
    (h : ∀ pg ∈ ps, pg.length = 200) :
    ps.flatten.length = 200 * ps.length := by
  induction ps with
  | nil => simp
  | cons pg ps ih =>
    have ihn := ih (fun q hq => h q (by simp [hq]))
    have hpg := h pg (by simp)
    simp [ihn, hpg]
    ring

/-! C5, C6, C7, C9, C10: ingestion-pipeline claims -/

/-- C5: when page 1 succeeds with k records and page 2 returns a non-2xx
response, the pagination loop stops immediately after requesting pages 1 and
2, and returns exactly the accumulated page-1 records; the function signals
no error (its result type carries none). -/
theorem C5_fail_soft (rs : List RawActivity) (tl : List PageResp)
    (h : rs ≠ []) :
    fetchAll (PageResp.ok rs :: PageResp.err :: tl) = rs ∧
    fetchEvents (PageResp.ok rs :: PageResp.err :: tl) 1
      = [Ev.pageReq 1, Ev.pageReq 2] := by
  cases rs with
  | nil => exact absurd rfl h
  | cons a as => exact ⟨by simp [fetchAll], rfl⟩

/-- A one-record page-1 body used as concrete input. -/
def rawRun : RawActivity := ⟨"Run", 5000, 1500, ⟨2024, 1, 3⟩, none, none⟩

/-- C5 witness: the fail-soft theorem at the concrete one-record page. -/
theorem C5_fail_soft_witness :
    fetchAll (PageResp.ok [rawRun] :: PageResp.err :: []) = [rawRun] ∧
    fetchEvents (PageResp.ok [rawRun] :: PageResp.err :: []) 1
      = [Ev.pageReq 1, Ev.pageReq 2] :=
  C5_fail_soft [rawRun] [] (by simp)

/-- C6 counterexample: an environment in which authentication, pagination and
normalization all succeed (there is a genuine Run activity) but the cache
write fails; the claim says the dataset is still returned, yet the code's
broad `except` turns the cache-write failure into the no-dataset result. -/
def envCacheFail : ApiEnv :=
  ⟨some ("id"), some ("secret"), some ("rt"), some ("token"),
    [PageResp.ok [rawRun], PageResp.ok []], false⟩

/-- C6 counterexample theorem: with a failing cache write, no dataset at all
is returned, even though ingestion succeeded up to the cache-write step. -/
theorem C6_counterexample :
    (cargar_datos_desde_api envCacheFail).result = none ∧
    (fetchAll envCacheFail.pages).filter (fun a => a.type == "Run") ≠ [] := by
  exact ⟨rfl, by decide⟩

/-- C6 amended: a cache-write failure is NOT a non-fatal warning with the
normalized dataset still returned, and the two authentication errors are not
the only no-dataset conditions: `df.to_csv` runs inside the one broad
`try/except`, so whenever the cache write fails the pipeline returns no
dataset at all — for every environment, however successful the ingestion up
to that point.  Only this implication is stated: raising network calls
(e.g. timeouts), which return no dataset through the same broad handler, are
outside the environment model, so no exhaustive characterization of the
no-dataset conditions is claimed. -/
theorem C6_cache_write_failure_no_dataset (env : ApiEnv)
    (hw : env.cacheWriteOk = false) :
    (cargar_datos_desde_api env).result = none := by
  unfold cargar_datos_desde_api
  cases h : tokenOf env with
  | none => rfl
  | some t => simp [hw]

/-- C6 witness: the implication at a concrete environment whose ingestion
succeeds (one single-record page, usable token) but whose cache write
fails. -/
theorem C6_cache_write_failure_no_dataset_witness :
    (cargar_datos_desde_api
        ⟨some ("id2"), some ("sec2"), some ("rt2"), some ("tok2"),
          [PageResp.ok [rawRun], PageResp.ok []], false⟩).result = none :=
  C6_cache_write_failure_no_dataset _ rfl

/-- C7: N successful full pages (each nonempty — 200 records) followed by a
successful empty page: the loop requests pages 1 through N+1 in order,
terminates at the empty page, and returns the concatenation of the pages in
page order, 200×N records in total. -/
theorem C7_accumulation (ps : List (List RawActivity))
    (h : ∀ pg ∈ ps, pg.length = 200) :
    fetchAll (ps.map PageResp.ok ++ [PageResp.ok []]) = ps.flatten ∧
    (fetchAll (ps.map PageResp.ok ++ [PageResp.ok []])).length
      = 200 * ps.length ∧
    fetchEvents (ps.map PageResp.ok ++ [PageResp.ok []]) 1
      = (List.range' 1 (ps.length + 1)).map Ev.pageReq := by
  have hne : ∀ pg ∈ ps, pg ≠ [] := by
    intro pg hpg hnil
    have := h pg hpg
    rw [hnil] at this
    simp at this
  refine ⟨fetchAll_fullPages ps hne, ?_, fetchEvents_fullPages ps 1 hne⟩
  rw [fetchAll_fullPages ps hne]
  exact flatten_length_const ps h

/-- A full page of 200 identical Run records. -/
def fullPage : List RawActivity := List.replicate 200 rawRun

/-- C7 witness: two full pages then an empty page give 400 records. -/
theorem C7_accumulation_witness :
    fetchAll ([fullPage, fullPage].map PageResp.ok ++ [PageResp.ok []])
        = ([fullPage, fullPage] : List (List RawActivity)).flatten ∧
    (fetchAll ([fullPage, fullPage].map PageResp.ok ++ [PageResp.ok []])).length
        = 200 * ([fullPage, fullPage] : List (List RawActivity)).length ∧
    fetchEvents ([fullPage, fullPage].map PageResp.ok ++ [PageResp.ok []]) 1
        = (List.range' 1 (([fullPage, fullPage] :
            List (List RawActivity)).length + 1)).map Ev.pageReq :=
  C7_accumulation [fullPage, fullPage]
    (by
      intro pg hpg
      have hp : pg = fullPage := by
        rcases List.mem_cons.mp hpg with h | h2
        · exact h
        · rcases List.mem_cons.mp h2 with h | h3
          · exact h
          · exact (List.not_mem_nil _ h3).elim
      rw [hp]
      exact List.length_replicate 200 rawRun)

/-- C9 counterexample: with all three credentials missing the code does not
fail with any configuration error before the network: the token-endpoint POST
is still issued (it is the sole event of the failing run), and the failure
surfaces only as the generic no-dataset result after the endpoint answers
without a token. -/
def envNoCreds : ApiEnv := ⟨none, none, none, none, [], false⟩

/-- C9 counterexample theorem: the run with missing credentials performs the
token network request (so no failure happens before a network call). -/
theorem C9_counterexample :
    (cargar_datos_desde_api envNoCreds).events = [Ev.tokenReq] ∧
    (cargar_datos_desde_api envNoCreds).result = none :=
  ⟨rfl, rfl⟩

/-- C9 amended: the code never validates credentials; for every environment
— missing or empty credentials included — the first external action is the
token-endpoint request.  There is no `AuthConfigError` path: a missing
credential can only surface later, through a token response without an
access token, as the generic no-dataset failure. -/
theorem C9_token_request_always (env : ApiEnv) :
    (cargar_datos_desde_api env).events.head? = some Ev.tokenReq := by
  unfold cargar_datos_desde_api
  cases h : tokenOf env with
  | none => rfl
  | some t => cases hw : env.cacheWriteOk <;> simp [hw]

/-- C10: when the token is usable, pagination terminates and no fetched
activity has type exactly `'Run'`, the live path returns the empty normalized
dataset `some []` — a present value, distinct from the `None` failure
result. -/
theorem C10_no_runs_empty_dataset (env : ApiEnv)
    (ht : tokenOf env ≠ none)
    (hr : (fetchAll env.pages).filter (fun a => a.type == "Run") = [])
    (hw : env.cacheWriteOk = true) :
    (cargar_datos_desde_api env).result = some [] ∧
    (cargar_datos_desde_api env).result ≠ none := by
  unfold cargar_datos_desde_api
  cases h : tokenOf env with
  | none => exact absurd h ht
  | some t => simp [h, hr, hw]

/-- A non-Run activity: it is dropped silently by the type filter. -/
def rawRide : RawActivity := ⟨"Ride", 10000, 2000, ⟨2024, 1, 5⟩, none, none⟩

/-- C10 witness: a successful run over a page containing only a Ride. -/
theorem C10_no_runs_empty_dataset_witness :
    (cargar_datos_desde_api
        ⟨some ("id"), some ("sec"), some ("rt"), some ("tok"),
          [PageResp.ok [rawRide], PageResp.ok []], true⟩).result = some [] ∧
    (cargar_datos_desde_api
        ⟨some ("id"), some ("sec"), some ("rt"), some ("tok"),
          [PageResp.ok [rawRide], PageResp.ok []], true⟩).result ≠ none :=
  C10_no_runs_empty_dataset _ (by decide) (by decide) rfl

/-! Helper lemmas about the resampling model -/

/-- Every row of a non-raw `agregar_resample` result is the aggregation of
its own bin label. -/
theorem mem_resample {df : List ActivityRecord} {p : Periodo} {b : AggRecord}
    (hp : p ≠ Periodo.porActividad) (hb : b ∈ agregar_resample df p) :
    b = bucketAgg p df b.fecha := by
  cases p
  case porActividad => exact absurd rfl hp
  all_goals
    simp only [agregar_resample] at hb
    obtain ⟨l, _, hbl⟩ := List.mem_map.mp hb
    rw [← hbl]
    rfl

/-- Any property preserved by the bin-label step holds along the whole bin
grid once it holds at the first label. -/
theorem labelRange_forall {P : Ymd → Prop} {next : Ymd → Ymd}
    (hnext : ∀ y, P y → P (next y)) :
    ∀ (fuel : ℕ) (lo hi : Ymd), P lo → ∀ l ∈ labelRange next fuel lo hi, P l := by
  intro fuel
  induction fuel with
  | zero =>
    intro lo hi _ l hl
    simp [labelRange] at hl
  | succ n ih =>
    intro lo hi hlo l hl
    rw [labelRange] at hl
    by_cases hc : days lo ≤ days hi
    · rw [if_pos hc] at hl
      rcases List.mem_cons.mp hl with h | h
      · rw [h]; exact hlo
      · exact ih (next lo) hi (hnext lo hlo) l h
    · rw [if_neg hc] at hl
      simp at hl

/-- The running minimum of dates is one of the dates. -/
theorem minFecha_mem : ∀ (l : List Ymd) (x : Ymd), minFecha x l ∈ x :: l := by
  intro l
  unfold minFecha
  induction l with
  | nil => intro x; simp
  | cons a t ih =>
    intro x
    simp only [List.foldl_cons]
    rcases List.mem_cons.mp (ih (if days a < days x then a else x)) with h | h
    · rw [h]
      split_ifs
      · simp
      · simp
    · simp [h]

/-! C1, C3, C4: resampling claims -/

/-- The concrete scenario of the spec: 5 km / 25 min and 10 km / 40 min in
one calendar week (Wednesday and Thursday, 2024-01-03 and 2024-01-04). -/
def scenarioDf : List ActivityRecord :=
  [⟨⟨2024, 1, 3⟩, 5, 25, some 5, none, none⟩,
   ⟨⟨2024, 1, 4⟩, 10, 40, some 4, none, none⟩]

/-- A dataset whose single record has zero (rounded) distance but positive
duration — exactly what normalization produces for a zero-distance
activity with positive moving time. -/
def zeroDistDf : List ActivityRecord := [⟨⟨2024, 1, 3⟩, 0, 10, none, none, none⟩]

/-- C1 counterexample: in the weekly resample of `zeroDistDf` the only
bucket has summed distance 0 and summed duration 10, and its recomputed pace
is `+inf` — a present float value, distinct from the NaN cell that models an
undefined pace — so the claim "the bucket's pace is undefined whenever the
bucket's summed distance is zero" fails on this input. -/
theorem C1_counterexample :
    (agregar_resample zeroDistDf Periodo.semanal).map (fun b => b.pace)
        = [PVal.posInf] ∧
    (agregar_resample zeroDistDf Periodo.semanal).map (fun b => b.distancia)
        = [0] ∧
    (agregar_resample zeroDistDf Periodo.semanal).map (fun b => b.tiempo)
        = [10] ∧
    PVal.posInf ≠ PVal.nan := by
  refine ⟨?_, ?_, ?_, by decide⟩ <;> decide

/-- C1 amended: every bucket of a non-raw resample carries the sums of its
records' distances and durations, and its pace is exactly float division of
summed duration by summed distance — never a mean of per-record paces; in
particular it equals `num (Σt/Σd)` whenever the summed distance is nonzero.
When the summed distance is zero the pace is NaN only if the summed duration
is also zero; a positive duration over zero distance gives `+inf`. -/
theorem C1_bucket_pace (df : List ActivityRecord) (p : Periodo)
    (hp : p ≠ Periodo.porActividad) (b : AggRecord)
    (hb : b ∈ agregar_resample df p) :
    b.distancia = ((df.filter (fun r => label p r.fecha == b.fecha)).map
        (fun r => r.distancia)).sum ∧
    b.tiempo = ((df.filter (fun r => label p r.fecha == b.fecha)).map
        (fun r => r.tiempo)).sum ∧
    b.pace = pandasDiv b.tiempo b.distancia ∧
    (b.distancia ≠ 0 → b.pace = PVal.num (b.tiempo / b.distancia)) := by
  have hbb := mem_resample hp hb
  rw [hbb]
  refine ⟨rfl, rfl, rfl, fun h => ?_⟩
  simp only [bucketAgg, pandasDiv]
  rw [if_neg]
  intro h0
  exact h (by simpa [bucketAgg] using h0)

/-- C1 witness: the spec's perturbed scenario — the weekly bucket pace is
65/15 = 13/3 ≈ 4.33, not the naive per-record mean 4.50. -/
theorem C1_bucket_pace_witness :
    ((agregar_resample scenarioDf Periodo.semanal).headD default).pace
        = PVal.num (65 / 15) ∧
    (65 / 15 : ℚ) = 13 / 3 ∧ (65 / 15 : ℚ) ≠ (5 + 4) / 2 := by
  have h := C1_bucket_pace scenarioDf Periodo.semanal (by decide)
      ((agregar_resample scenarioDf Periodo.semanal).headD default)
      (by decide)
  refine ⟨?_, by norm_num, by norm_num⟩
  have h4 := h.2.2.2 (by decide)
  rw [h4]
  decide

/-- Two records two days apart: the daily grid contains the empty day
between them. -/
def gapDf : List ActivityRecord :=
  [⟨⟨2024, 2, 1⟩, 1, 5, some 5, none, none⟩,
   ⟨⟨2024, 2, 3⟩, 1, 5, some 5, none, none⟩]

/-- C3 counterexample: daily resampling of records dated 2024-02-01 and
2024-02-03 emits three buckets, including 2024-02-02, a bucket no source
record falls into — so buckets with zero matching records ARE emitted. -/
theorem C3_counterexample :
    (agregar_resample gapDf Periodo.diario).map (fun b => b.fecha)
        = [⟨2024, 2, 1⟩, ⟨2024, 2, 2⟩, ⟨2024, 2, 3⟩] ∧
    gapDf.filter (fun r => label Periodo.diario r.fecha == (⟨2024, 2, 2⟩ : Ymd))
        = [] := by
  exact ⟨by decide, by decide⟩

/-- C3 amended: non-raw resampling emits the full regular grid of calendar
bins between the first and last occupied bins, so a bucket with zero matching
records can be emitted; such a gap bucket is zero-filled — summed distance
and duration 0, pace NaN, and undefined (NaN) heart-rate and cadence means. -/
theorem C3_empty_buckets_zero_filled (df : List ActivityRecord) (p : Periodo)
    (hp : p ≠ Periodo.porActividad) (b : AggRecord)
    (hb : b ∈ agregar_resample df p)
    (hemp : df.filter (fun r => label p r.fecha == b.fecha) = []) :
    b.distancia = 0 ∧ b.tiempo = 0 ∧ b.pace = PVal.nan ∧
    b.pulsaciones = none ∧ b.cadencia = none := by
  have hbb := mem_resample hp hb
  rw [hbb]
  simp [bucketAgg, hemp, pandasDiv, meanOpt]

/-- C3 witness: the middle bucket of the daily resample of `gapDf` is the
zero-filled 2024-02-02 bucket. -/
theorem C3_empty_buckets_zero_filled_witness :
    ((agregar_resample gapDf Periodo.diario).getD 1 default).distancia = 0 ∧
    ((agregar_resample gapDf Periodo.diario).getD 1 default).tiempo = 0 ∧
    ((agregar_resample gapDf Periodo.diario).getD 1 default).pace = PVal.nan ∧
    ((agregar_resample gapDf Periodo.diario).getD 1 default).pulsaciones = none ∧
    ((agregar_resample gapDf Periodo.diario).getD 1 default).cadencia = none :=
  C3_empty_buckets_zero_filled gapDf Periodo.diario (by decide)
    ((agregar_resample gapDf Periodo.diario).getD 1 default)
    (by decide) (by decide)

/-- A single record on Tuesday 2024-01-02. -/
def tueDf : List ActivityRecord := [⟨⟨2024, 1, 2⟩, 1, 5, some 5, none, none⟩]

/-- C4 counterexample: the weekly bucket holding the Tuesday 2024-01-02
record is labeled 2024-01-08 and the monthly bucket 2024-01-31 — both
strictly AFTER the record's own date, so neither can be the start of the
calendar period containing it (a period start is ≤ every date it covers; the
Monday starting that record's calendar week is 2024-01-01). -/
theorem C4_counterexample :
    (agregar_resample tueDf Periodo.semanal).map (fun b => b.fecha)
        = [(⟨2024, 1, 8⟩ : Ymd)] ∧
    (agregar_resample tueDf Periodo.mensual).map (fun b => b.fecha)
        = [(⟨2024, 1, 31⟩ : Ymd)] ∧
    days (⟨2024, 1, 2⟩ : Ymd) < days (⟨2024, 1, 8⟩ : Ymd) ∧
    days (⟨2024, 1, 1⟩ : Ymd) % 7 = 0 := by
  refine ⟨?_, ?_, by decide, by decide⟩ <;> decide

/-- C4 amended: daily buckets are labeled with the day itself, but the other
periods label bins with the period END: every weekly bucket label is a
Monday, and each record's weekly label is the first Monday ON OR AFTER its
date (the close of a Tuesday-to-Monday bin), not the Monday starting its
week; each record's monthly label is the LAST valid day of the record's
month, its quarterly label the last day of the closing month (a multiple of
3, in the same quarter, at or after the record's month) of its quarter, and
its yearly label December 31 of its year. -/
theorem C4_bucket_labels (df : List ActivityRecord)
    (hv : ∀ r ∈ df, validYmd r.fecha) :
    (∀ b ∈ agregar_resample df Periodo.semanal, days b.fecha % 7 = 0) ∧
    (∀ r ∈ df, days r.fecha ≤ days (label Periodo.semanal r.fecha) ∧
      days (label Periodo.semanal r.fecha) ≤ days r.fecha + 6 ∧
      days (label Periodo.semanal r.fecha) % 7 = 0) ∧
    (∀ r ∈ df,
      label Periodo.mensual r.fecha
        = ⟨r.fecha.y, r.fecha.m, daysInMonth r.fecha.y r.fecha.m⟩ ∧
      validYmd (label Periodo.mensual r.fecha) ∧
      ¬ validYmd ⟨r.fecha.y, r.fecha.m, daysInMonth r.fecha.y r.fecha.m + 1⟩) ∧
    (∀ r ∈ df,
      label Periodo.trimestral r.fecha
        = ⟨r.fecha.y, qEndMonth r.fecha.m,
            daysInMonth r.fecha.y (qEndMonth r.fecha.m)⟩ ∧
      r.fecha.m ≤ qEndMonth r.fecha.m ∧ qEndMonth r.fecha.m % 3 = 0 ∧
      (r.fecha.m - 1) / 3 = (qEndMonth r.fecha.m - 1) / 3 ∧
      validYmd (label Periodo.trimestral r.fecha) ∧
      ¬ validYmd ⟨r.fecha.y, qEndMonth r.fecha.m,
          daysInMonth r.fecha.y (qEndMonth r.fecha.m) + 1⟩) ∧
    (∀ r ∈ df,
      label Periodo.anual r.fecha = ⟨r.fecha.y, 12, 31⟩ ∧
      validYmd (⟨r.fecha.y, 12, 31⟩ : Ymd) ∧
      ¬ validYmd (⟨r.fecha.y, 12, 32⟩ : Ymd)) := by
  refine ⟨?_, ?_, ?_, ?_, ?_⟩
  · intro b hb
    cases df with
    | nil => simp [agregar_resample, resampleBins] at hb
    | cons r rest =>
      simp only [agregar_resample, resampleBins] at hb
      obtain ⟨l, hl, hbl⟩ := List.mem_map.mp hb
      have hbf : b.fecha = l := by rw [← hbl]; rfl
      rw [hbf]
      -- the starting label is a valid Monday, and stepping 7 days keeps both
      have hmn : validYmd (minFecha r.fecha (rest.map (fun s => s.fecha))) := by
        have hmem := minFecha_mem (rest.map (fun s => s.fecha)) r.fecha
        have : minFecha r.fecha (rest.map (fun s => s.fecha))
            ∈ (r :: rest).map (fun s => s.fecha) := by
          simpa using hmem
        obtain ⟨s, hs, hsf⟩ := List.mem_map.mp this
        rw [← hsf]
        exact hv s hs
      have hlo : validYmd (label Periodo.semanal
            (minFecha r.fecha (rest.map (fun s => s.fecha)))) ∧
          days (label Periodo.semanal
            (minFecha r.fecha (rest.map (fun s => s.fecha)))) % 7 = 0 := by
        obtain ⟨hval, hdays⟩ := addDays_spec hmn
          ((7 - days (minFecha r.fecha (rest.map (fun s => s.fecha))) % 7) % 7)
        refine ⟨hval, ?_⟩
        rw [show label Periodo.semanal (minFecha r.fecha
            (rest.map (fun s => s.fecha))) = addDays (minFecha r.fecha
            (rest.map (fun s => s.fecha))) ((7 - days (minFecha r.fecha
            (rest.map (fun s => s.fecha))) % 7) % 7) from rfl, hdays]
        omega
      have hstep : ∀ y, validYmd y ∧ days y % 7 = 0 →
          validYmd (nextLabel Periodo.semanal y) ∧
          days (nextLabel Periodo.semanal y) % 7 = 0 := by
        intro y ⟨hy, hm⟩
        obtain ⟨hval, hdays⟩ := addDays_spec hy 7
        refine ⟨hval, ?_⟩
        rw [show nextLabel Periodo.semanal y = addDays y 7 from rfl, hdays]
        omega
      exact (labelRange_forall hstep _ _ _ hlo l hl).2
  · intro r hr
    have hval := hv r hr
    obtain ⟨hv2, hd2⟩ := addDays_spec hval ((7 - days r.fecha % 7) % 7)
    rw [show label Periodo.semanal r.fecha
        = addDays r.fecha ((7 - days r.fecha % 7) % 7) from rfl, hd2]
    omega
  · intro r hr
    obtain ⟨hy, hm1, hm2, _, _⟩ := hv r hr
    refine ⟨rfl, ⟨hy, hm1, hm2, one_le_daysInMonth _ _, le_refl _⟩, ?_⟩
    intro hbad
    have := hbad.2.2.2.2
    simp only [] at this
    omega
  · intro r hr
    obtain ⟨hy, hm1, hm2, _, _⟩ := hv r hr
    have hq1 : 1 ≤ qEndMonth r.fecha.m ∧ qEndMonth r.fecha.m ≤ 12 ∧
        r.fecha.m ≤ qEndMonth r.fecha.m ∧ qEndMonth r.fecha.m % 3 = 0 ∧
        (r.fecha.m - 1) / 3 = (qEndMonth r.fecha.m - 1) / 3 := by
      unfold qEndMonth
      split_ifs <;> omega
    refine ⟨rfl, hq1.2.2.1, hq1.2.2.2.1, hq1.2.2.2.2,
      ⟨hy, hq1.1, hq1.2.1, one_le_daysInMonth _ _, le_refl _⟩, ?_⟩
    intro hbad
    have := hbad.2.2.2.2
    simp only [] at this
    omega
  · intro r hr
    obtain ⟨hy, hm1, hm2, _, _⟩ := hv r hr
    have h31 : daysInMonth r.fecha.y 12 = 31 := by unfold daysInMonth; norm_num
    refine ⟨rfl, ⟨hy, by norm_num, by norm_num, by norm_num, by simp [h31]⟩, ?_⟩
    intro hbad
    have := hbad.2.2.2.2
    simp only [] at this
    rw [h31] at this
    omega

/-- A single record on Wednesday 2024-05-15, used to instantiate the label
theorem. -/
def mayDf : List ActivityRecord := [⟨⟨2024, 5, 15⟩, 8, 40, some 5, none, none⟩]

/-- C4 witness: the label theorem at the May dataset — the weekly label is a
Monday and the monthly label is the last day of May. -/
theorem C4_bucket_labels_witness :
    days ((agregar_resample mayDf Periodo.semanal).headD default).fecha % 7 = 0 ∧
    label Periodo.mensual (⟨2024, 5, 15⟩ : Ymd)
      = (⟨2024, 5, daysInMonth 2024 5⟩ : Ymd) := by
  have h := C4_bucket_labels mayDf (by decide)
  exact ⟨h.1 _ (by decide), (h.2.2.1 (mayDf.headD default) (by decide)).1⟩

/-! C8: per-record pace normalization -/

/-- A Run with positive distance and zero moving time. -/
def rawZeroTime : RawActivity := ⟨"Run", 5000, 0, ⟨2024, 1, 6⟩, none, none⟩

/-- C8 counterexample: a record with positive distance and zero moving time
gets `pace = None` (undefined), not the defined pace 0.00, because
`round(pace_promedio, 2) if pace_promedio else None` treats the float `0.0`
as falsy. -/
theorem C8_counterexample :
    0 < (normalizeOne rawZeroTime).distancia ∧
    (normalizeOne rawZeroTime).pace = none := by
  exact ⟨by decide, by decide⟩

/-- C8 amended: for a kept record, the pace is defined and equal to
`round2(duration_min / distance_km)` exactly when the distance is positive
AND the raw pace is nonzero (nonzero moving time); it is undefined (`None`,
with no error raised — normalization is total) when the distance is zero or
nonpositive, but ALSO when the computed pace is 0.0 (positive distance, zero
moving time), since Python truthiness sends 0.0 to the `None` branch. -/
theorem C8_pace_normalization (a : RawActivity) :
    (0 < a.distance → a.moving_time ≠ 0 →
      (normalizeOne a).pace
        = some (round2 ((a.moving_time / 60) / (a.distance / 1000)))) ∧
    (0 < a.distance → a.moving_time = 0 → (normalizeOne a).pace = none) ∧
    (a.distance ≤ 0 → (normalizeOne a).pace = none) := by
  refine ⟨?_, ?_, ?_⟩
  · intro hd ht
    have hdk : 0 < a.distance / 1000 := by positivity
    have hq : (a.moving_time / 60) / (a.distance / 1000) ≠ 0 := by
      apply div_ne_zero
      · exact div_ne_zero ht (by norm_num)
      · exact ne_of_gt hdk
    simp [normalizeOne, hdk, hq]
  · intro hd ht
    have hdk : 0 < a.distance / 1000 := by positivity
    simp [normalizeOne, hdk, ht]
  · intro hd
    have hle : a.distance / 1000 ≤ 0 := by
      apply div_nonpos_of_nonpos_of_nonneg hd
      norm_num
    simp [normalizeOne, not_lt.mpr hle]

/-- A zero-distance Run with positive moving time. -/
def rawZeroDist : RawActivity := ⟨"Run", 0, 600, ⟨2024, 1, 7⟩, none, none⟩

/-- C8 witness: a genuine run (5000 m, 1500 s) gets the defined rounded pace,
and the zero-distance record gets an undefined pace. -/
theorem C8_pace_normalization_witness :
    (normalizeOne rawRun).pace
      = some (round2 ((rawRun.moving_time / 60) / (rawRun.distance / 1000))) ∧
    (normalizeOne rawZeroDist).pace = none :=
  ⟨(C8_pace_normalization rawRun).1 (by norm_num [rawRun]) (by norm_num [rawRun]),
   (C8_pace_normalization rawZeroDist).2.2 (by norm_num [rawZeroDist])⟩

/-! C2: cache round-trip -/

theorem dval_dch {k : ℕ} (h : k < 10) : dval (dch k) = k := by
  interval_cases k <;> decide

theorem isDig_dch {k : ℕ} (h : k < 10) : isDig (dch k) = true := by
  interval_cases k <;> decide

/-- Formatting a valid date as `YYYY-MM-DD` and parsing it back restores the
same date value. -/
theorem parseYmd_fmtYmd {x : Ymd} (hv : validYmd x) (hy : x.y ≤ 9999) :
    parseYmd (fmtYmd x) = some x := by
  obtain ⟨y, m, d⟩ := x
  obtain ⟨h1, h2, h3, h4, h5⟩ := hv
  have hy' : y ≤ 9999 := hy
  have h2' : 1 ≤ m := h2
  have h3' : m ≤ 12 := h3
  have h4' : 1 ≤ d := h4
  have h5' : d ≤ daysInMonth y m := h5
  clear hy h1 h2 h3 h4 h5
  have hstep : parseYmd (fmtYmd ⟨y, m, d⟩)
      = (if ('-' : Char) = '-' ∧ ('-' : Char) = '-'
            ∧ (isDig (dch (y / 1000 % 10)) ∧ isDig (dch (y / 100 % 10))
              ∧ isDig (dch (y / 10 % 10)) ∧ isDig (dch (y % 10))
              ∧ isDig (dch (m / 10 % 10)) ∧ isDig (dch (m % 10))
              ∧ isDig (dch (d / 10 % 10)) ∧ isDig (dch (d % 10))) then
          some ⟨1000 * dval (dch (y / 1000 % 10)) + 100 * dval (dch (y / 100 % 10))
              + 10 * dval (dch (y / 10 % 10)) + dval (dch (y % 10)),
            10 * dval (dch (m / 10 % 10)) + dval (dch (m % 10)),
            10 * dval (dch (d / 10 % 10)) + dval (dch (d % 10))⟩
        else none) := rfl
  rw [hstep, if_pos]
  · have e1 := dval_dch (Nat.mod_lt (y / 1000) (by omega))
    have e2 := dval_dch (Nat.mod_lt (y / 100) (by omega))
    have e3 := dval_dch (Nat.mod_lt (y / 10) (by omega))
    have e4 := dval_dch (Nat.mod_lt y (by omega))
    have e5 := dval_dch (Nat.mod_lt (m / 10) (by omega))
    have e6 := dval_dch (Nat.mod_lt m (by omega))
    have e7 := dval_dch (Nat.mod_lt (d / 10) (by omega))
    have e8 := dval_dch (Nat.mod_lt d (by omega))
    rw [e1, e2, e3, e4, e5, e6, e7, e8, Option.some.injEq, Ymd.mk.injEq]
    have hd31 : d ≤ 31 := le_trans h5' (daysInMonth_le y m)
    refine ⟨?_, ?_, ?_⟩ <;> omega
  · refine ⟨rfl, rfl, ?_, ?_, ?_, ?_, ?_, ?_, ?_, ?_⟩ <;>
      exact isDig_dch (Nat.mod_lt _ (by omega))

/-- Writing one normalized record to the cache and reading it back restores
the record exactly: numbers and NaNs are unchanged and the date string is
parsed back to the same date value. -/
theorem loadRow_saveRow {r : ActivityRecord} (hv : validYmd r.fecha)
    (hy : r.fecha.y ≤ 9999) : loadRow (saveRow r) = some r := by
  obtain ⟨f, dk, tm, pc, pu, ca⟩ := r
  have hp := parseYmd_fmtYmd (x := f) hv hy
  unfold saveRow loadRow
  dsimp only
  rw [hp]
  cases pc <;> cases pu <;> cases ca <;> rfl

theorem readRows_to_csv {df : List ActivityRecord}
    (h : ∀ r ∈ df, validYmd r.fecha ∧ r.fecha.y ≤ 9999) :
    readRows (to_csv df) = some df := by
  induction df with
  | nil => rfl
  | cons r rest ih =>
    have hr := h r (by simp)
    have ihh := ih (fun s hs => h s (by simp [hs]))
    simp only [to_csv, List.map_cons, readRows] at ihh ⊢
    rw [loadRow_saveRow hr.1 hr.2, ihh]

/-- C2: loading the cache immediately after saving a normalized dataset
(valid calendar dates, four-digit years) reproduces every record exactly —
within (indeed, equal under) the 2-decimal rounding already applied at
normalization time — with the `Fecha` column restored as date values by
`pd.to_datetime` and every NaN (undefined pace, heart rate or cadence)
restored as NaN.  The dataset is required to be nonempty: saving the empty
dataframe (which has no columns at all) writes a header-less file that
`read_csv` rejects, which the reader treats as a cache miss; the per-record
round-trip statement is vacuous there anyway. -/
theorem C2_cache_round_trip (df : List ActivityRecord)
    (hne : df ≠ [])
    (h : ∀ r ∈ df, validYmd r.fecha ∧ r.fecha.y ≤ 9999) :
    cargar_datos_desde_cache (to_csv df) = some df :=
  readRows_to_csv h

/-- A small normalized dataset exercising defined and undefined cells. -/
def cacheDf : List ActivityRecord :=
  [⟨⟨2024, 3, 15⟩, 10, 50, some 5, some 150, none⟩,
   ⟨⟨2023, 12, 31⟩, 0, 10, none, none, some (171 / 2)⟩]

/-- C2 witness: the round trip at a concrete two-record dataset. -/
theorem C2_cache_round_trip_witness :
    cargar_datos_desde_cache (to_csv cacheDf) = some cacheDf :=
  C2_cache_round_trip cacheDf (by decide) (by decide)

end Strava
